import Mathlib

/-!
Shallow embedding of `src/claude/types.py` (module `claude.types` of the
coding-telegram-bot repository): the `ClaudeResponse` and `StreamUpdate`
dataclasses and the four derived accessors of `StreamUpdate`.

Python dynamic values that flow through the accessors are modelled by the
inductive `PyVal` (Python `None`, booleans, integers, strings, lists and
string-keyed dicts).  Python truthiness is `PyVal.truthy`; the
value-returning boolean operators `and` / `or` are `pyAnd` / `pyOr`;
`dict.get(key, default)` is `dictGet`.  Dataclass fields annotated
`Optional[...]` become `Option`-typed fields, keeping the distinction
between an absent field (`Option.none`) and a present-but-empty container
(`some []`).
-/

set_option autoImplicit false

/-- Universe of Python values reaching the accessors: `None`, `bool`,
`int`, `str`, `list`, and `dict` with string keys modelled as an
association list (first binding wins, matching a well-formed dict). -/
inductive PyVal where
  | none
  | bool (b : Bool)
  | int (n : Int)
  | str (s : String)
  | list (xs : List PyVal)
  | dict (entries : List (String × PyVal))

/-- Python truthiness: `None`, `False`, `0`, `""`, `[]`, `{}` are falsy. -/
def PyVal.truthy : PyVal → Bool
  | .none => false
  | .bool b => b
  | .int n => n != 0
  | .str s => s != ""
  | .list xs => !xs.isEmpty
  | .dict es => !es.isEmpty

/-- Python `d.get(k, default)` on a dict modelled as an association list. -/
def dictGet (es : List (String × PyVal)) (k : String) (d : PyVal) : PyVal :=
  match es.find? (fun p => p.1 == k) with
  | some p => p.2
  | Option.none => d

/-- Python `a and b`: returns `a` if falsy, else `b`. -/
def pyAnd (a b : PyVal) : PyVal :=
  if a.truthy then b else a

/-- Python `a or b`: returns `a` if truthy, else `b`. -/
def pyOr (a b : PyVal) : PyVal :=
  if a.truthy then a else b

/-- The `ClaudeResponse` dataclass (`src/claude/types.py`, lines 11-33):
final result of a Claude Code execution, with defaults
`is_error=False`, `error_type=None`, `tools_used=[]`. -/
structure ClaudeResponse where
  content : String
  session_id : String
  cost : Float
  duration_ms : Int
  num_turns : Int
  is_error : Bool := false
  error_type : Option String := Option.none
  tools_used : List (List (String × PyVal)) := []

/-- The `StreamUpdate` dataclass (`src/claude/types.py`, lines 36-65):
one streaming event.  Every field after `type` defaults to `None`. -/
structure StreamUpdate where
  type : String
  content : Option String := Option.none
  tool_calls : Option (List (List (String × PyVal))) := Option.none
  metadata : Option (List (String × PyVal)) := Option.none
  timestamp : Option String := Option.none
  session_context : Option (List (String × PyVal)) := Option.none
  execution_id : Option String := Option.none
  parent_message_id : Option String := Option.none
  error_info : Option (List (String × PyVal)) := Option.none
  progress : Option (List (String × PyVal)) := Option.none

namespace StreamUpdate

/-- The `metadata` field as the Python value it holds (`None` or a dict). -/
def metadataVal (u : StreamUpdate) : PyVal :=
  match u.metadata with
  | Option.none => PyVal.none
  | some m => PyVal.dict m

/-- The `content` field as the Python value it holds (`None` or a str). -/
def contentVal (u : StreamUpdate) : PyVal :=
  match u.content with
  | Option.none => PyVal.none
  | some s => PyVal.str s

/-- The `error_info` field as the Python value it holds. -/
def errorInfoVal (u : StreamUpdate) : PyVal :=
  match u.error_info with
  | Option.none => PyVal.none
  | some ei => PyVal.dict ei

/-- The `tool_calls` field as the Python value it holds. -/
def toolCallsVal (u : StreamUpdate) : PyVal :=
  match u.tool_calls with
  | Option.none => PyVal.none
  | some calls => PyVal.list (calls.map PyVal.dict)

/-- The `progress` field as the Python value it holds. -/
def progressVal (u : StreamUpdate) : PyVal :=
  match u.progress with
  | Option.none => PyVal.none
  | some p => PyVal.dict p

/-- Method `StreamUpdate.is_error` (lines 67-71):
`return self.type == "error" or (self.metadata and self.metadata.get("is_error", False))`.
Python `or` / `and` return an operand, so the result is a raw `PyVal`,
not necessarily a boolean. -/
def is_error (u : StreamUpdate) : PyVal :=
  pyOr (PyVal.bool (u.type == "error"))
    (match u.metadata with
     | Option.none => PyVal.none
     | some m => pyAnd (PyVal.dict m) (dictGet m "is_error" (PyVal.bool false)))

/-- The last two lines of `get_error_message` (lines 77-79):
`if self.is_error() and self.content: return self.content` / `return None`. -/
def errorFallback (u : StreamUpdate) : PyVal :=
  if (pyAnd u.is_error u.contentVal).truthy then u.contentVal else PyVal.none

/-- Method `StreamUpdate.get_error_message` (lines 73-79):
`if self.error_info: return self.error_info.get("message")`, else fall back
to `content` when `is_error()` and `content` are truthy, else `None`.
The guard `if self.error_info:` tests truthiness, so an empty dict falls
through exactly like an absent one. -/
def get_error_message (u : StreamUpdate) : PyVal :=
  match u.error_info with
  | some ei =>
    if (PyVal.dict ei).truthy then dictGet ei "message" PyVal.none
    else u.errorFallback
  | Option.none => u.errorFallback

/-- Method `StreamUpdate.get_tool_names` (lines 81-85):
`if not self.tool_calls: return []` then
`[call.get("name", "unknown") for call in self.tool_calls if call.get("name")]`. -/
def get_tool_names (u : StreamUpdate) : List PyVal :=
  if !u.toolCallsVal.truthy then []
  else
    match u.tool_calls with
    | some calls =>
      (calls.filter (fun c => (dictGet c "name" PyVal.none).truthy)).map
        (fun c => dictGet c "name" (PyVal.str "unknown"))
    | Option.none => []

/-- Method `StreamUpdate.get_progress_percentage` (lines 87-91):
`if self.progress: return self.progress.get("percentage")` / `return None`. -/
def get_progress_percentage (u : StreamUpdate) : PyVal :=
  match u.progress with
  | some p =>
    if (PyVal.dict p).truthy then dictGet p "percentage" PyVal.none
    else PyVal.none
  | Option.none => PyVal.none

end StreamUpdate

/-- Tests whether a Python value is the boolean `True` itself. -/
def isPyTrue : PyVal → Bool
  | PyVal.bool true => true
  | _ => false

/-- The spec condition of claim C2, taken literally: `type == "error"`, or
`metadata` is present and its `is_error` key (default `False`) is the
boolean `True`. -/
def specIsErrorCond (u : StreamUpdate) : Bool :=
  u.type == "error" ||
    (match u.metadata with
     | Option.none => false
     | some m => isPyTrue (dictGet m "is_error" (PyVal.bool false)))

/-- The tool-name extraction described by claim C3: for absent `tool_calls`
the empty sequence; otherwise, in order, the `name` values of the entries
whose `name` key is present and truthy, entries without a usable name
being skipped. -/
def specToolNames (u : StreamUpdate) : List PyVal :=
  match u.tool_calls with
  | Option.none => []
  | some calls =>
    (calls.filter (fun c => (dictGet c "name" PyVal.none).truthy)).map
      (fun c => dictGet c "name" PyVal.none)

/-! Exception-aware re-embedding of the four accessors, used to settle the
totality claim C7.  Each accessor is rewritten in an `Except` monad in
which the one fallible primitive of the code — calling the `.get` method
on a field value — carries its true Python failure condition: it raises
`AttributeError` unless the receiver is a dict.  The truthiness guards of
the source are what keeps every `.get` receiver a dict. -/

/-- The method call `v.get(k, d)` on an arbitrary Python value: succeeds
with `dictGet` on a dict and raises `AttributeError` on anything else
(in particular on `None`). -/
def pyGetMethod (v : PyVal) (k : String) (d : PyVal) : Except String PyVal :=
  match v with
  | PyVal.dict es => Except.ok (dictGet es k d)
  | _ => Except.error "AttributeError"

namespace StreamUpdate

/-- Accessor `is_error`, with the short-circuit of `or` / `and` made explicit and
`.get` fallible: `self.metadata.get("is_error", False)` is only reached
when `self.metadata` is truthy. -/
def is_errorE (u : StreamUpdate) : Except String PyVal :=
  if (PyVal.bool (u.type == "error")).truthy then
    Except.ok (PyVal.bool (u.type == "error"))
  else if u.metadataVal.truthy then
    pyGetMethod u.metadataVal "is_error" (PyVal.bool false)
  else
    Except.ok u.metadataVal

/-- Accessor `get_error_message`, with `.get` fallible:
`self.error_info.get("message")` is only reached when `self.error_info`
is truthy. -/
def get_error_messageE (u : StreamUpdate) : Except String PyVal :=
  if u.errorInfoVal.truthy then
    pyGetMethod u.errorInfoVal "message" PyVal.none
  else do
    let e ← u.is_errorE
    if (pyAnd e u.contentVal).truthy then Except.ok u.contentVal
    else Except.ok PyVal.none

end StreamUpdate

/-- The comprehension of `get_tool_names` with each `call.get(...)` call
fallible.  Each `call` is a dict, so both calls succeed. -/
def toolNamesE : List (List (String × PyVal)) → Except String (List PyVal)
  | [] => Except.ok []
  | c :: rest => do
    let cond ← pyGetMethod (PyVal.dict c) "name" PyVal.none
    let tail ← toolNamesE rest
    if cond.truthy then do
      let v ← pyGetMethod (PyVal.dict c) "name" (PyVal.str "unknown")
      Except.ok (v :: tail)
    else Except.ok tail

namespace StreamUpdate

/-- Accessor `get_tool_names` with fallible `.get` calls. -/
def get_tool_namesE (u : StreamUpdate) : Except String (List PyVal) :=
  if !u.toolCallsVal.truthy then Except.ok []
  else
    match u.tool_calls with
    | some calls => toolNamesE calls
    | Option.none => Except.ok []

/-- Accessor `get_progress_percentage` with `.get` fallible:
`self.progress.get("percentage")` is only reached when `self.progress` is
truthy. -/
def get_progress_percentageE (u : StreamUpdate) : Except String PyVal :=
  if u.progressVal.truthy then
    pyGetMethod u.progressVal "percentage" PyVal.none
  else
    Except.ok PyVal.none

end StreamUpdate

example : StreamUpdate.is_error { type := "error" } = PyVal.bool true := rfl

example : StreamUpdate.is_error { type := "assistant" } = PyVal.none := rfl

example :
    StreamUpdate.is_error
      { type := "assistant", metadata := some [("is_error", PyVal.bool true)] }
      = PyVal.bool true := rfl

example :
    StreamUpdate.get_error_message
      { type := "error", content := some "fallback" } = PyVal.str "fallback" := rfl

example :
    StreamUpdate.get_error_message
      { type := "error", content := some "fallback", error_info := some [] }
      = PyVal.str "fallback" := rfl

example :
    StreamUpdate.get_tool_names
      { type := "assistant",
        tool_calls := some [[("name", PyVal.str "search")], [("other", PyVal.str "x")],
                            [("name", PyVal.str "fetch")]] }
      = [PyVal.str "search", PyVal.str "fetch"] := rfl

example :
    StreamUpdate.get_progress_percentage
      { type := "progress", progress := some [("percentage", PyVal.int 42)] }
      = PyVal.int 42 := rfl

/-! Helper lemmas about the Python-semantics primitives. -/

@[simp]
theorem truthy_none : PyVal.none.truthy = false := rfl

@[simp]
theorem truthy_bool (b : Bool) : (PyVal.bool b).truthy = b := rfl

@[simp]
theorem truthy_str (s : String) : (PyVal.str s).truthy = (s != "") := rfl

@[simp]
theorem truthy_list (xs : List PyVal) : (PyVal.list xs).truthy = !xs.isEmpty := rfl

@[simp]
theorem truthy_dict (es : List (String × PyVal)) : (PyVal.dict es).truthy = !es.isEmpty := rfl

@[simp]
theorem truthy_pyAnd (a b : PyVal) : (pyAnd a b).truthy = (a.truthy && b.truthy) := by
  unfold pyAnd
  by_cases h : a.truthy <;> simp [h]

@[simp]
theorem truthy_pyOr (a b : PyVal) : (pyOr a b).truthy = (a.truthy || b.truthy) := by
  unfold pyOr
  by_cases h : a.truthy <;> simp [h]

theorem dictGet_nil (k : String) (d : PyVal) : dictGet [] k d = d := rfl

/-- When the looked-up value is truthy, the key was found, so the default
passed to `dictGet` is irrelevant. -/
theorem dictGet_default_of_truthy (es : List (String × PyVal)) (k : String)
    (h : (dictGet es k PyVal.none).truthy = true) (d d' : PyVal) :
    dictGet es k d = dictGet es k d' := by
  unfold dictGet at h ⊢
  cases hf : es.find? (fun p => p.1 == k) with
  | none => rw [hf] at h; exact absurd h (by simp [PyVal.truthy])
  | some p => rfl

/-- A nonempty association list is a truthy Python dict. -/
theorem truthy_dict_of_ne_nil (es : List (String × PyVal)) (h : es ≠ []) :
    (PyVal.dict es).truthy = true := by
  cases es with
  | nil => exact absurd rfl h
  | cons e es => simp [PyVal.truthy]

/-! Claim theorems. -/

/-- C1, counterexample: with `error_info` present but empty,
`type = "error"` and `content = "fallback"`, `get_error_message()` falls
through to `content` and returns `"fallback"`, while the claim demands the
(absent) value of the `message` key of `error_info`, i.e. no message.
The guard `if self.error_info:` is false on an empty dict. -/
theorem C1_counterexample :
    StreamUpdate.get_error_message
      { type := "error", content := some "fallback", error_info := some [] }
      = PyVal.str "fallback"
    ∧ dictGet [] "message" PyVal.none = PyVal.none
    ∧ PyVal.str "fallback" ≠ PyVal.none :=
  ⟨rfl, rfl, fun h => PyVal.noConfusion h⟩

/-- C1, amended: for every StreamUpdate whose `error_info` field is present
AND NONEMPTY, `get_error_message()` returns the value of the `message` key
of `error_info` (absent when that key is unset) and never falls through to
`content`, regardless of `type`, `metadata` and `content`. -/
theorem C1_error_info_nonempty (u : StreamUpdate) (ei : List (String × PyVal))
    (hp : u.error_info = some ei) (hne : ei ≠ []) :
    u.get_error_message = dictGet ei "message" PyVal.none := by
  simp [StreamUpdate.get_error_message, hp, truthy_dict_of_ne_nil ei hne]

theorem C1_witness :
    StreamUpdate.get_error_message
      { type := "error", content := some "ignored",
        error_info := some [("message", PyVal.str "boom")] }
      = dictGet [("message", PyVal.str "boom")] "message" PyVal.none :=
  C1_error_info_nonempty _ _ rfl (by simp)

/-- C2, counterexample: for `type = "assistant"` with `metadata` absent,
`is_error()` returns Python `None` (the value of
`self.metadata and self.metadata.get("is_error", False)` when `metadata`
is `None`), which is neither the boolean `True` nor the boolean `False`,
although the spec condition is false there. -/
theorem C2_counterexample :
    StreamUpdate.is_error { type := "assistant" } = PyVal.none
    ∧ specIsErrorCond { type := "assistant" } = false
    ∧ PyVal.none ≠ PyVal.bool true
    ∧ PyVal.none ≠ PyVal.bool false :=
  ⟨rfl, rfl, fun h => PyVal.noConfusion h, fun h => PyVal.noConfusion h⟩

/-- C2, amended: `is_error()` returns a TRUTHY value exactly when
`type == "error"`, or `metadata` is present-and-nonempty and its `is_error`
key (default `False`) holds a truthy value; otherwise the returned value is
falsy (but possibly `None` or `{}` rather than the boolean `False`).  In
particular, whenever `type = "error"` it returns the boolean `True`
regardless of all other fields. -/
theorem C2_is_error_truthiness (u : StreamUpdate) :
    (u.is_error.truthy =
      (u.type == "error" ||
        (match u.metadata with
         | Option.none => false
         | some m => (PyVal.dict m).truthy
             && (dictGet m "is_error" (PyVal.bool false)).truthy)))
    ∧ (u.type = "error" → u.is_error = PyVal.bool true) := by
  constructor
  · cases hm : u.metadata with
    | none => simp [StreamUpdate.is_error, hm]
    | some m => simp [StreamUpdate.is_error, hm]
  · intro ht
    simp [StreamUpdate.is_error, pyOr, ht]

theorem C2_witness :
    StreamUpdate.is_error { type := "error", metadata := some [("is_error", PyVal.bool false)] }
      = PyVal.bool true :=
  (C2_is_error_truthiness
    { type := "error", metadata := some [("is_error", PyVal.bool false)] }).2 rfl

/-- On entries that pass the truthiness filter, the `"unknown"` default of
the comprehension in the source is never used. -/
theorem filtered_names_default (calls : List (List (String × PyVal))) :
    (calls.filter (fun c => (dictGet c "name" PyVal.none).truthy)).map
      (fun c => dictGet c "name" (PyVal.str "unknown"))
    = (calls.filter (fun c => (dictGet c "name" PyVal.none).truthy)).map
      (fun c => dictGet c "name" PyVal.none) := by
  induction calls with
  | nil => rfl
  | cons c rest ih =>
    by_cases h : (dictGet c "name" PyVal.none).truthy
    · simp [List.filter_cons, h, ih,
        dictGet_default_of_truthy c "name" h (PyVal.str "unknown") PyVal.none]
    · simp [List.filter_cons, h, ih]

/-- C3: `get_tool_names()` returns the empty sequence when `tool_calls` is
absent, and otherwise, in the original order, exactly the `name` values of
the `tool_calls` entries whose `name` key is present and truthy, with the
other entries skipped rather than replaced by a placeholder. -/
theorem C3_get_tool_names (u : StreamUpdate) : u.get_tool_names = specToolNames u := by
  cases htc : u.tool_calls with
  | none =>
    simp [StreamUpdate.get_tool_names, specToolNames, StreamUpdate.toolCallsVal, htc]
  | some calls =>
    cases calls with
    | nil =>
      simp [StreamUpdate.get_tool_names, specToolNames, StreamUpdate.toolCallsVal, htc]
    | cons a l =>
      have key := filtered_names_default (a :: l)
      simp only [StreamUpdate.get_tool_names, specToolNames, StreamUpdate.toolCallsVal, htc,
        List.map_cons, List.isEmpty_cons, Bool.not_false, if_false, Bool.not_true,
        Bool.false_eq_true, ite_false]
      exact key

/-- C4, counterexample: with `error_info` absent, `type = "error"` (so
`is_error()` is true) and `content` present but equal to the empty string,
`get_error_message()` returns `None`, while the claim demands the present
`content`.  The fallback guard `if self.is_error() and self.content:`
tests truthiness of `content`, not presence. -/
theorem C4_counterexample :
    StreamUpdate.get_error_message { type := "error", content := some "" } = PyVal.none
    ∧ PyVal.none ≠ PyVal.str "" :=
  ⟨rfl, fun h => PyVal.noConfusion h⟩

/-- C4, amended: for every StreamUpdate whose `error_info` field is absent,
`get_error_message()` returns `content` when `is_error()` is truthy and
`content` is present AND NONEMPTY, and returns absent otherwise. -/
theorem C4_no_error_info (u : StreamUpdate) (h : u.error_info = Option.none) :
    u.get_error_message =
      if u.is_error.truthy && u.contentVal.truthy then u.contentVal
      else PyVal.none := by
  simp [StreamUpdate.get_error_message, StreamUpdate.errorFallback, h]

theorem C4_witness :
    StreamUpdate.get_error_message { type := "error", content := some "fallback" }
      = PyVal.str "fallback" := by
  rw [C4_no_error_info { type := "error", content := some "fallback" } rfl]
  rfl

/-- C5: `get_progress_percentage()` returns the value of the `percentage`
key of `progress` when `progress` is present (absent when that key is
unset), and absent when `progress` is absent.  (For a present-but-empty
`progress` both readings give absent, so the truthiness guard in the
source agrees with the claim.) -/
theorem C5_get_progress_percentage (u : StreamUpdate) :
    u.get_progress_percentage =
      match u.progress with
      | Option.none => PyVal.none
      | some p => dictGet p "percentage" PyVal.none := by
  cases hp : u.progress with
  | none => simp [StreamUpdate.get_progress_percentage, hp]
  | some p =>
    cases p with
    | nil => simp [StreamUpdate.get_progress_percentage, hp, dictGet]
    | cons e es => simp [StreamUpdate.get_progress_percentage, hp]

/-- C6: a `ClaudeResponse` constructed with only the required fields
`content`, `session_id`, `cost`, `duration_ms`, `num_turns` has the
defaults `is_error = False`, `error_type = None`, `tools_used = []`. -/
theorem C6_defaults (c s : String) (cost : Float) (d n : Int) :
    ({ content := c, session_id := s, cost := cost, duration_ms := d,
       num_turns := n } : ClaudeResponse).is_error = false
    ∧ ({ content := c, session_id := s, cost := cost, duration_ms := d,
         num_turns := n } : ClaudeResponse).error_type = Option.none
    ∧ ({ content := c, session_id := s, cost := cost, duration_ms := d,
         num_turns := n } : ClaudeResponse).tools_used = [] :=
  ⟨rfl, rfl, rfl⟩

/-- The fallible `is_error` agrees with the pure one; in particular it
never raises. -/
theorem is_errorE_ok (u : StreamUpdate) : u.is_errorE = Except.ok u.is_error := by
  unfold StreamUpdate.is_errorE StreamUpdate.is_error
  cases hm : u.metadata with
  | none =>
    by_cases ht : (u.type == "error") = true <;>
      simp [StreamUpdate.metadataVal, hm, pyOr, pyAnd, ht, pyGetMethod]
  | some m =>
    cases m with
    | nil =>
      by_cases ht : (u.type == "error") = true <;>
        simp [StreamUpdate.metadataVal, hm, pyOr, pyAnd, ht, pyGetMethod]
    | cons e es =>
      by_cases ht : (u.type == "error") = true <;>
        simp [StreamUpdate.metadataVal, hm, pyOr, pyAnd, ht, pyGetMethod]

/-- The fallible `get_error_message` agrees with the pure one; in
particular it never raises. -/
theorem get_error_messageE_ok (u : StreamUpdate) :
    u.get_error_messageE = Except.ok u.get_error_message := by
  unfold StreamUpdate.get_error_messageE StreamUpdate.get_error_message
  cases he : u.error_info with
  | none =>
    cases hb : (u.is_error.truthy && u.contentVal.truthy) <;>
      simp [StreamUpdate.errorInfoVal, he, is_errorE_ok, StreamUpdate.errorFallback,
        pyGetMethod, Bind.bind, Except.bind, hb]
  | some ei =>
    cases ei with
    | nil =>
      cases hb : (u.is_error.truthy && u.contentVal.truthy) <;>
        simp [StreamUpdate.errorInfoVal, he, is_errorE_ok, StreamUpdate.errorFallback,
          pyGetMethod, Bind.bind, Except.bind, hb]
    | cons e es => simp [StreamUpdate.errorInfoVal, he, pyGetMethod]

/-- The fallible comprehension of `get_tool_names` agrees with the pure
one; in particular it never raises. -/
theorem toolNamesE_ok (calls : List (List (String × PyVal))) :
    toolNamesE calls = Except.ok
      ((calls.filter (fun c => (dictGet c "name" PyVal.none).truthy)).map
        (fun c => dictGet c "name" (PyVal.str "unknown"))) := by
  induction calls with
  | nil => rfl
  | cons c rest ih =>
    by_cases h : (dictGet c "name" PyVal.none).truthy <;>
      simp [toolNamesE, pyGetMethod, ih, List.filter_cons, h, Bind.bind, Except.bind]

/-- The fallible `get_tool_names` agrees with the pure one. -/
theorem get_tool_namesE_ok (u : StreamUpdate) :
    u.get_tool_namesE = Except.ok u.get_tool_names := by
  unfold StreamUpdate.get_tool_namesE StreamUpdate.get_tool_names
  cases htc : u.tool_calls with
  | none => simp [StreamUpdate.toolCallsVal, htc]
  | some calls =>
    cases calls <;> simp [StreamUpdate.toolCallsVal, htc, toolNamesE_ok]

/-- The fallible `get_progress_percentage` agrees with the pure one. -/
theorem get_progress_percentageE_ok (u : StreamUpdate) :
    u.get_progress_percentageE = Except.ok u.get_progress_percentage := by
  unfold StreamUpdate.get_progress_percentageE StreamUpdate.get_progress_percentage
  cases hp : u.progress with
  | none => simp [StreamUpdate.progressVal, hp]
  | some p => cases p <;> simp [StreamUpdate.progressVal, hp, pyGetMethod]

/-- C7: the four accessors are total.  In the exception-aware
re-embedding, where every `.get` method call raises `AttributeError` on a
non-dict receiver, each accessor still returns successfully on EVERY
StreamUpdate, with the value of the pure embedding; and a missing optional
field resolves to the absence value (or the empty sequence), never to a
failure. -/
theorem C7_accessors_total (u : StreamUpdate) :
    (u.is_errorE = Except.ok u.is_error
      ∧ u.get_error_messageE = Except.ok u.get_error_message
      ∧ u.get_tool_namesE = Except.ok u.get_tool_names
      ∧ u.get_progress_percentageE = Except.ok u.get_progress_percentage)
    ∧ (u.metadata = Option.none → u.type ≠ "error" → u.is_error = PyVal.none)
    ∧ (u.error_info = Option.none → u.content = Option.none →
        u.get_error_message = PyVal.none)
    ∧ (u.tool_calls = Option.none → u.get_tool_names = [])
    ∧ (u.progress = Option.none → u.get_progress_percentage = PyVal.none) := by
  refine ⟨⟨is_errorE_ok u, get_error_messageE_ok u, get_tool_namesE_ok u,
    get_progress_percentageE_ok u⟩, ?_, ?_, ?_, ?_⟩
  · intro hm ht
    simp [StreamUpdate.is_error, hm, pyOr, ht]
  · intro he hc
    simp [StreamUpdate.get_error_message, he, StreamUpdate.errorFallback,
      StreamUpdate.contentVal, hc]
  · intro htc
    simp [StreamUpdate.get_tool_names, StreamUpdate.toolCallsVal, htc]
  · intro hp
    simp [StreamUpdate.get_progress_percentage, hp]

theorem C7_witness :
    StreamUpdate.is_error { type := "assistant" } = PyVal.none
    ∧ StreamUpdate.get_error_message { type := "assistant" } = PyVal.none
    ∧ StreamUpdate.get_tool_names { type := "assistant" } = []
    ∧ StreamUpdate.get_progress_percentage { type := "assistant" } = PyVal.none := by
  have h := C7_accessors_total { type := "assistant" }
  exact ⟨h.2.1 rfl (by decide), h.2.2.1 rfl rfl, h.2.2.2.1 rfl, h.2.2.2.2 rfl⟩

/-- C8, counterexample: with `type = "assistant"`, an empty `metadata`
mapping and an absent `metadata` do NOT yield the same `is_error()`
result: the empty mapping yields the raw value `{}` (the left operand of
the short-circuited `and`), the absent field yields `None`.  The two are
equal up to truthiness but are distinct values. -/
theorem C8_counterexample :
    StreamUpdate.is_error { type := "assistant", metadata := some [] } = PyVal.dict []
    ∧ StreamUpdate.is_error { type := "assistant" } = PyVal.none
    ∧ PyVal.dict [] ≠ PyVal.none :=
  ⟨rfl, rfl, fun h => PyVal.noConfusion h⟩

/-- C8, amended: for every StreamUpdate, setting one of the optional
mapping/sequence fields (`metadata`, `error_info`, `progress`,
`tool_calls`) to an empty mapping/sequence yields literally the same
result as leaving the field absent for each of the four accessors, with
one exception: for `is_error()` with `metadata`, the two results agree
only up to truthiness (`{}` versus `None`, both falsy). -/
theorem C8_empty_vs_absent (u : StreamUpdate) :
    ((StreamUpdate.is_error { u with metadata := some [] }).truthy
      = (StreamUpdate.is_error { u with metadata := Option.none }).truthy)
    ∧ StreamUpdate.is_error { u with error_info := some [] }
      = StreamUpdate.is_error { u with error_info := Option.none }
    ∧ StreamUpdate.is_error { u with tool_calls := some [] }
      = StreamUpdate.is_error { u with tool_calls := Option.none }
    ∧ StreamUpdate.is_error { u with progress := some [] }
      = StreamUpdate.is_error { u with progress := Option.none }
    ∧ StreamUpdate.get_error_message { u with metadata := some [] }
      = StreamUpdate.get_error_message { u with metadata := Option.none }
    ∧ StreamUpdate.get_error_message { u with error_info := some [] }
      = StreamUpdate.get_error_message { u with error_info := Option.none }
    ∧ StreamUpdate.get_error_message { u with tool_calls := some [] }
      = StreamUpdate.get_error_message { u with tool_calls := Option.none }
    ∧ StreamUpdate.get_error_message { u with progress := some [] }
      = StreamUpdate.get_error_message { u with progress := Option.none }
    ∧ StreamUpdate.get_tool_names { u with metadata := some [] }
      = StreamUpdate.get_tool_names { u with metadata := Option.none }
    ∧ StreamUpdate.get_tool_names { u with error_info := some [] }
      = StreamUpdate.get_tool_names { u with error_info := Option.none }
    ∧ StreamUpdate.get_tool_names { u with tool_calls := some [] }
      = StreamUpdate.get_tool_names { u with tool_calls := Option.none }
    ∧ StreamUpdate.get_tool_names { u with progress := some [] }
      = StreamUpdate.get_tool_names { u with progress := Option.none }
    ∧ StreamUpdate.get_progress_percentage { u with metadata := some [] }
      = StreamUpdate.get_progress_percentage { u with metadata := Option.none }
    ∧ StreamUpdate.get_progress_percentage { u with error_info := some [] }
      = StreamUpdate.get_progress_percentage { u with error_info := Option.none }
    ∧ StreamUpdate.get_progress_percentage { u with tool_calls := some [] }
      = StreamUpdate.get_progress_percentage { u with tool_calls := Option.none }
    ∧ StreamUpdate.get_progress_percentage { u with progress := some [] }
      = StreamUpdate.get_progress_percentage { u with progress := Option.none } := by
  refine ⟨?_, rfl, rfl, rfl, ?_, rfl, rfl, rfl,
    rfl, rfl, rfl, rfl, rfl, rfl, rfl, rfl⟩
  · simp [StreamUpdate.is_error]
  · cases he : u.error_info with
    | none =>
      simp [StreamUpdate.get_error_message, StreamUpdate.errorFallback,
        StreamUpdate.is_error, StreamUpdate.contentVal, he]
    | some ei =>
      cases ei with
      | nil =>
        simp [StreamUpdate.get_error_message, StreamUpdate.errorFallback,
          StreamUpdate.is_error, StreamUpdate.contentVal, he]
      | cons e es =>
        simp [StreamUpdate.get_error_message, he]

/-- C9: with `error_info` absent, `is_error()` truthy, and `content`
present but equal to the empty string, `get_error_message()` returns
absent rather than the empty string: the fallback guard tests truthiness
of `content`, and the empty string is falsy. -/
theorem C9_empty_content (u : StreamUpdate) (h1 : u.error_info = Option.none)
    (h2 : u.is_error.truthy = true) (h3 : u.content = some "") :
    u.get_error_message = PyVal.none ∧ u.get_error_message ≠ PyVal.str "" := by
  have hmsg : u.get_error_message = PyVal.none := by
    simp [StreamUpdate.get_error_message, StreamUpdate.errorFallback,
      StreamUpdate.contentVal, h1, h3]
  exact ⟨hmsg, by rw [hmsg]; exact fun h => PyVal.noConfusion h⟩

theorem C9_witness :
    StreamUpdate.get_error_message { type := "error", content := some "" } = PyVal.none
    ∧ StreamUpdate.get_error_message { type := "error", content := some "" }
      ≠ PyVal.str "" :=
  C9_empty_content { type := "error", content := some "" } rfl rfl rfl

/-- C10: `is_error()` does not coerce its result to a boolean.  When
`type` is not `"error"`: with `metadata` absent it returns Python `None`
(an absence value, not a boolean), and with `metadata` a present nonempty
mapping it returns the raw value of the `is_error` key (default `False`),
whatever that value is. -/
theorem C10_is_error_raw (u : StreamUpdate) (h : u.type ≠ "error") :
    (u.metadata = Option.none → u.is_error = PyVal.none)
    ∧ (∀ m, u.metadata = some m → m ≠ [] →
        u.is_error = dictGet m "is_error" (PyVal.bool false)) := by
  have ht : (u.type == "error") = false := by simp [h]
  constructor
  · intro hm
    simp [StreamUpdate.is_error, hm, pyOr, ht]
  · intro m hm hne
    simp [StreamUpdate.is_error, hm, pyOr, pyAnd, ht, truthy_dict_of_ne_nil m hne]

theorem C10_witness :
    StreamUpdate.is_error
      { type := "assistant", metadata := some [("is_error", PyVal.str "yes")] }
      = PyVal.str "yes" := by
  have h := (C10_is_error_raw
    { type := "assistant", metadata := some [("is_error", PyVal.str "yes")] }
    (by decide)).2 [("is_error", PyVal.str "yes")] rfl (by simp)
  rw [h]
  rfl
